import Mathlib

/-!
Verification of the VentureSync wizard workflow controller
(src/static/js/scenarios.js, wizard section, lines 847-1485).

The JavaScript module state (currentStep, totalSteps, wizardData,
selectedPersona), the two browser stores (localStorage for durable wizard
state, sessionStorage for the one-shot demo handoff) and the relevant DOM
inputs are embedded as explicit Lean values; each wizard function is
translated into a state transformer over them.  DOM reads are passed in as
explicit `Page` / `DomForm` arguments and DOM writes that feed later reads
(autoFillDemoData) are returned as updated forms.  JSON (de)serialisation of
the stored wizard data is modelled structurally: the program only ever
stores `JSON.stringify` of its own `wizardData` object and
`currentStep.toString()`, on which stringify/parse is the identity, so the
stores hold the structured values (the step keeps its decimal-string form).
Timer-deferred work (the 1000 ms auto-advance, the 30 s auto-save tick, the
staged progress delays) is modelled by explicit transformers / event traces;
the delays themselves carry no state.
-/

/-- A demo scenario record as written by the scenario carousel
(`sessionStorage.setItem('selectedScenario', JSON.stringify(scenario))`,
scenarios.js:349) and read by the wizard; only the fields the wizard
consumes are modelled. -/
structure Scenario where
  name : String
  industry : String
  ai_system : String
deriving Repr, DecidableEq

/-- A value stored in the `wizardData` JS object: form inputs give strings,
checkbox groups give ordered lists of strings, and the `demo_scenario` key
holds the cached scenario record. -/
inductive JSVal where
  | str (s : String)
  | list (l : List String)
  | scen (sc : Scenario)
deriving Repr, DecidableEq

/-- The `wizardData` JS object: an insertion-ordered string-keyed map. -/
abbrev WizardData := List (String × JSVal)

/-- JS property read `d[key]`: first binding wins (keys are unique by
construction of `wdSet`). -/
def wdGet : WizardData → String → Option JSVal
  | [], _ => none
  | (k, v) :: rest, key => if k = key then some v else wdGet rest key

/-- JS property write `d[key] = v`: replace in place if the key is present
(JS objects keep the original insertion position), else append. -/
def wdSet : WizardData → String → JSVal → WizardData
  | [], key, v => [(key, v)]
  | (k, w) :: rest, key, v =>
      if k = key then (k, v) :: rest else (k, w) :: wdSet rest key v

/-- `haystack` starts with `needle` (character lists). -/
def charsStart : List Char → List Char → Bool
  | _, [] => true
  | [], _ :: _ => false
  | a :: as, b :: bs => a == b && charsStart as bs

/-- `needle` occurs somewhere in `haystack` (character lists). -/
def charsContain : List Char → List Char → Bool
  | [], pat => pat.isEmpty
  | a :: as, pat => charsStart (a :: as) pat || charsContain as pat

/-- JS `s.includes(pat)`: substring test, used by
`window.location.search.includes('demo')` (scenarios.js:1395) and the
`key.includes('checkbox')` filter in collectCurrentStepData
(scenarios.js:1150). -/
def jsIncludes (s pat : String) : Bool :=
  charsContain s.data pat.data

/-- JS `s.trim()`: strip whitespace from both ends (executable model of
the trimming used by `field.value.trim()`, scenarios.js:1115). -/
def jsTrim (s : String) : String :=
  ⟨(((s.data.dropWhile (fun c => c.isWhitespace)).reverse.dropWhile
      (fun c => c.isWhitespace)).reverse)⟩

/-- Durable store: the two localStorage keys the wizard uses,
`nexusai_wizard_data` (JSON of wizardData, held structurally) and
`nexusai_wizard_step` (the decimal string `currentStep.toString()`). -/
structure LocalStore where
  wizard_data : Option WizardData
  wizard_step : Option String
deriving Repr, DecidableEq

/-- Session-scoped store: the one-shot demo handoff keys
`selectedScenario` and `selectedPersona` written by the scenario picker. -/
structure SessionStore where
  selectedScenario : Option Scenario
  selectedPersona : Option String
deriving Repr, DecidableEq

/-- The wizard module state (scenarios.js:848-851) together with the two
browser stores it reads and writes. -/
structure WizardState where
  currentStep : Nat
  wizardData : WizardData
  selectedPersona : Option String
  localStore : LocalStore
  sessionStore : SessionStore
deriving Repr, DecidableEq

/-- `let totalSteps = 4` (scenarios.js:849). -/
def totalSteps : Nat := 4

/-- Fresh module state on page entry: `currentStep = 1`, `wizardData = {}`,
`selectedPersona = null` (scenarios.js:848-851), with whatever the two
browser stores currently hold. -/
def initialState (ls : LocalStore) (ss : SessionStore) : WizardState :=
  { currentStep := 1
    wizardData := []
    selectedPersona := none
    localStore := ls
    sessionStore := ss }

/-- A `[required]` element of a wizard step as seen by
validateCurrentStep: either a text/select/textarea input carrying its
current value, or a checkbox carrying its `value` attribute and whether it
is checked.  JS `field.value` is the value attribute for a checkbox,
independent of the checked state. -/
inductive ReqField where
  | input (value : String)
  | checkbox (value : String) (checked : Bool)
deriving Repr, DecidableEq

/-- What JS `field.value` returns for a required field. -/
def ReqField.domValue : ReqField → String
  | .input v => v
  | .checkbox v _ => v

/-- A checkbox input inside a wizard form. -/
structure CheckboxInput where
  name : String
  value : String
  checked : Bool
deriving Repr, DecidableEq

/-- The `.wizard-form` of one step as read by collectCurrentStepData:
`entries` are the `FormData` entries in DOM order, `checkboxes` the
`input[type="checkbox"]` elements. -/
structure WizardForm where
  entries : List (String × String)
  checkboxes : List CheckboxInput
deriving Repr, DecidableEq

/-- The `#stepN` DOM element: its `[required]` elements and its
`.wizard-form` (if any). -/
structure StepElement where
  requiredFields : List ReqField
  form : Option WizardForm
deriving Repr, DecidableEq

/-- The rendered page: `document.getElementById('step' + n)`. -/
structure Page where
  steps : Nat → Option StepElement

/-- js saveWizardData (scenarios.js:1375-1378):
`localStorage.setItem('nexusai_wizard_data', JSON.stringify(wizardData));
localStorage.setItem('nexusai_wizard_step', currentStep.toString());`. -/
def saveWizardData (s : WizardState) : WizardState :=
  { s with localStore :=
      { wizard_data := some s.wizardData
        wizard_step := some (toString s.currentStep) } }

/-- js clearSavedWizardData (scenarios.js:1408-1413): removes both durable
keys and both one-shot session keys. -/
def clearSavedWizardData (s : WizardState) : WizardState :=
  { s with
      localStore := { wizard_data := none, wizard_step := none }
      sessionStore := { selectedScenario := none, selectedPersona := none } }

/-- js prefillWizardFromScenario (scenarios.js:900-915): spread-overwrite
`wizardData = {...wizardData, company_name: scenario.name, industry:
scenario.industry.toLowerCase(), ai_description: scenario.ai_system,
demo_scenario: scenario}`.  The function also schedules a one-shot
`nextStep()` 1000 ms later when `currentStep === 1`; that deferred DOM-side
auto-advance is outside this data transformer. -/
def prefillWizardFromScenario (scenario : Scenario) (d : WizardData) : WizardData :=
  wdSet (wdSet (wdSet (wdSet d
    "company_name" (JSVal.str scenario.name))
    "industry" (JSVal.str scenario.industry.toLower))
    "ai_description" (JSVal.str scenario.ai_system))
    "demo_scenario" (JSVal.scen scenario)

/-- js loadDemoScenario (scenarios.js:888-898): reads
`sessionStorage.getItem('selectedScenario')`, parses it and prefills.  The
stored record is held structurally, so the `JSON.parse` succeeds; a
malformed stored string (parse throws, caught and logged) behaves like the
absent case.  Note the read does NOT remove the key. -/
def loadDemoScenario (s : WizardState) : WizardState :=
  match s.sessionStore.selectedScenario with
  | some scenario =>
      { s with wizardData := prefillWizardFromScenario scenario s.wizardData }
  | none => s

/-- js validateCurrentStep (scenarios.js:1105-1125): missing step element
passes; step 1 passes iff `selectedPersona != null`; otherwise every
`[required]` element must have a non-empty trimmed `field.value` (for a
checkbox that is its value attribute, not its checked state). -/
def validateCurrentStep (page : Page) (s : WizardState) : Bool :=
  match page.steps s.currentStep with
  | none => true
  | some el =>
      if s.currentStep = 1 then s.selectedPersona.isSome
      else el.requiredFields.all (fun f => jsTrim f.domValue != "")

/-- js checkboxData accumulation (scenarios.js:1137-1146): group the
checked checkboxes by name, in order, pushing each value. -/
def pushCheckboxValue : List (String × List String) → String → String →
    List (String × List String)
  | [], n, v => [(n, [v])]
  | (k, vs) :: rest, n, v =>
      if k = n then (k, vs ++ [v]) :: rest
      else (k, vs) :: pushCheckboxValue rest n v

/-- The `checkboxData` object built by collectCurrentStepData. -/
def collectCheckboxData (cbs : List CheckboxInput) : List (String × List String) :=
  (cbs.filter (fun cb => cb.checked)).foldl
    (fun acc cb => pushCheckboxValue acc cb.name cb.value) []

/-- js collectCurrentStepData merge (scenarios.js:1148-1158): FormData
entries whose key does not contain 'checkbox' are written as scalars, then
each grouped checkbox list is written, last write wins per key. -/
def collectFormInto (form : WizardForm) (d : WizardData) : WizardData :=
  let d1 := form.entries.foldl
    (fun d kv => if jsIncludes kv.1 "checkbox" then d
                 else wdSet d kv.1 (JSVal.str kv.2)) d
  (collectCheckboxData form.checkboxes).foldl
    (fun d kv => wdSet d kv.1 (JSVal.list kv.2)) d1

/-- js collectCurrentStepData (scenarios.js:1127-1162): early-returns
(without saving) when the step element or its form is missing; otherwise
merges the form into wizardData and calls saveWizardData. -/
def collectCurrentStepData (page : Page) (s : WizardState) : WizardState :=
  match page.steps s.currentStep with
  | none => s
  | some el =>
      match el.form with
      | none => s
      | some form =>
          saveWizardData { s with wizardData := collectFormInto form s.wizardData }

/-- js nextStep (scenarios.js:1012-1030): validation failure is a no-op
(only a notification is shown); on success collect (which saves) then
increment capped below totalSteps.  The `autoFillDemoData()` call fired
after the increment writes only into DOM form inputs; it is modelled
separately as `autoFillDemoData` on the form it touches. -/
def nextStep (page : Page) (s : WizardState) : WizardState :=
  if validateCurrentStep page s then
    let s1 := collectCurrentStepData page s
    if s1.currentStep < totalSteps then
      { s1 with currentStep := s1.currentStep + 1 }
    else s1
  else s

/-- js previousStep (scenarios.js:1032-1038): decrement with floor 1; only
display updates besides the decrement — wizardData and both stores are
untouched. -/
def previousStep (s : WizardState) : WizardState :=
  if 1 < s.currentStep then { s with currentStep := s.currentStep - 1 } else s

/-- The scalar inputs of a rendered `.wizard-form` (name-to-value, DOM
order); `querySelector('[name="x"]')` returns the first match. -/
structure DomForm where
  inputs : List (String × String)
deriving Repr, DecidableEq

/-- js `form.querySelector('[name=name]').value` (first match). -/
def inputValue : List (String × String) → String → Option String
  | [], _ => none
  | (k, v) :: rest, name => if k = name then some v else inputValue rest name

/-- js `if (el && !el.value) el.value = v` for the input called `name`:
fill the first matching input only when its current value is the empty
string (the only falsy string). -/
def setInputIfEmpty : List (String × String) → String → String →
    List (String × String)
  | [], _, _ => []
  | (k, w) :: rest, name, v =>
      if k = name then
        (if w = "" then (k, v) :: rest else (k, w) :: rest)
      else (k, w) :: setInputIfEmpty rest name v

/-- js autoFillDemoData (scenarios.js:1070-1103): reads
`wizardData.demo_scenario` (that key only ever holds a scenario record);
on step 2 fills `company_name` and `industry` of the step-2 form, on step 3
fills `ai_description` of the step-3 form, each only when the input exists
and is currently empty.  `f` is the form of the step being filled. -/
def autoFillDemoData (s : WizardState) (f : DomForm) : DomForm :=
  match wdGet s.wizardData "demo_scenario" with
  | some (JSVal.scen scenario) =>
      if s.currentStep = 2 then
        ⟨setInputIfEmpty
          (setInputIfEmpty f.inputs "company_name" scenario.name)
          "industry" scenario.industry.toLower⟩
      else if s.currentStep = 3 then
        ⟨setInputIfEmpty f.inputs "ai_description" scenario.ai_system⟩
      else f
  | _ => f

/-- js: truthiness of `wizardData.persona` inside loadSavedWizardData; the
key holds a string when present, falsy only when empty. -/
def personaOf (d : WizardData) : Option String :=
  match wdGet d "persona" with
  | some (JSVal.str p) => if p = "" then none else some p
  | _ => none

/-- js loadSavedWizardData (scenarios.js:1380-1406).  The data branch runs
when a stored record exists and the live `wizardData.demo_scenario` is
absent; it replaces wizardData and, when the restored data carries a
persona, selectedPersona.  The step branch runs when a stored step exists
and the URL query string does not contain 'demo'; `parseInt` of the stored
decimal string is modelled by `parseIntNat` (the program only ever stores
`currentStep.toString()`), and the step is restored only when strictly
greater than 1 and at most totalSteps.  The restore itself sits in a
1000 ms `setTimeout`; the deferred assignment is modelled as part of the
transformer.  `restoreSavedData` is the first block (data restore). -/
def restoreSavedData (s : WizardState) : WizardState :=
  match s.localStore.wizard_data with
  | some d =>
      if (wdGet s.wizardData "demo_scenario").isNone then
        { s with
            wizardData := d
            selectedPersona :=
              match personaOf d with
              | some p => some p
              | none => s.selectedPersona }
      else s
  | none => s

/-- JS `parseInt(savedStep)`: parse the leading decimal digits, NaN (here
`none`) when the string does not start with a digit.  The wizard only ever
stores `currentStep.toString()`. -/
def parseIntNat (s : String) : Option Nat :=
  let ds := s.data.takeWhile (fun c => c.isDigit)
  if ds.isEmpty then none
  else some (ds.foldl (fun n c => n * 10 + (c.toNat - '0'.toNat)) 0)

/-- The second block of js loadSavedWizardData: step restore. -/
def restoreSavedStep (urlSearch : String) (s : WizardState) : WizardState :=
  match s.localStore.wizard_step with
  | some stepStr =>
      if jsIncludes urlSearch "demo" then s
      else
        match parseIntNat stepStr with
        | some st =>
            if 1 < st ∧ st ≤ totalSteps then { s with currentStep := st } else s
        | none => s
  | none => s

/-- js loadSavedWizardData, assembled: the data block runs first, then the
step block. -/
def loadSavedWizardData (urlSearch : String) (s : WizardState) : WizardState :=
  restoreSavedStep urlSearch (restoreSavedData s)

/-- js auto-save tick (scenarios.js:1481-1485): every 30 000 ms,
`if (Object.keys(wizardData).length > 0) saveWizardData()`. -/
def autoSaveTick (s : WizardState) : WizardState :=
  if 0 < s.wizardData.length then saveWizardData s else s

/-- js displayWizardResults (scenarios.js:1233-1258): DOM rendering, then
`clearSavedWizardData()` — but only when the `#analysisResults` element
exists (`if (!results) return;` fires before the clear). -/
def displayWizardResults (resultsElPresent : Bool) (s : WizardState) : WizardState :=
  if resultsElPresent then clearSavedWizardData s else s

/-- js showAnalysisError (scenarios.js:1349-1373): renders the error state
with a retry button; neither store nor wizardData nor currentStep is
touched. -/
def showAnalysisError (s : WizardState) : WizardState :=
  s

/-- Outcome of the awaited `makeAPICall('/api/analyze', ...)`: resolves
with a parsed result, or throws (unreachable network, or non-ok HTTP
status rethrown by makeAPICall). -/
inductive AnalysisOutcome where
  | success
  | failure
deriving Repr, DecidableEq

/-- js runAnalysis (scenarios.js:1179-1213), store/state level: collect
(which saves with the pre-submission step), set `currentStep = 4`, await
the staged sequence and the network call, then displayWizardResults on
success or showAnalysisError on failure. -/
def runAnalysisState (page : Page) (outcome : AnalysisOutcome)
    (resultsElPresent : Bool) (s : WizardState) : WizardState :=
  let s1 := collectCurrentStepData page s
  let s2 := { s1 with currentStep := 4 }
  match outcome with
  | .success => displayWizardResults resultsElPresent s2
  | .failure => showAnalysisError s2

/-- Observable events of one runAnalysis execution, in order. -/
inductive AnalysisEvent where
  | stagedStepShown (i : Nat)
  | requestIssued
  | responseReceived
  | resultDisplayed
  | errorDisplayed
deriving Repr, DecidableEq

/-- js simulateAnalysisSteps (scenarios.js:1215-1223): highlights each
`.analysis-step` element in turn, awaiting a 1200 ms delay after each. -/
def simulateAnalysisStepsTrace (numSteps : Nat) : List AnalysisEvent :=
  (List.range numSteps).map AnalysisEvent.stagedStepShown

/-- Event trace of js runAnalysis (scenarios.js:1179-1213):
`await simulateAnalysisSteps()` completes first, only then is
`makeAPICall('/api/analyze', ...)` awaited (request issued, then response),
then displayWizardResults — or, when the awaited call throws, the catch
block shows the error. -/
def runAnalysisTrace (numSteps : Nat) (outcome : AnalysisOutcome) :
    List AnalysisEvent :=
  simulateAnalysisStepsTrace numSteps ++
    (match outcome with
     | .success => [AnalysisEvent.requestIssued, AnalysisEvent.responseReceived,
                    AnalysisEvent.resultDisplayed]
     | .failure => [AnalysisEvent.requestIssued, AnalysisEvent.errorDisplayed])

/-- `a` occurs strictly before the first occurrence of `b` in `tr`. -/
def precedes (tr : List AnalysisEvent) (a b : AnalysisEvent) : Bool :=
  (tr.takeWhile (fun e => e != b)).contains a

/-- The `risk_assessment` object of an analysis response; numeric scores
are integers in the backend's 0-100 range, each field possibly absent. -/
structure RiskAssessment where
  risk_score : Option Int
  compliance_score : Option Int
  risk_level : Option String
  status_color : Option String
deriving Repr, DecidableEq

/-- The parsed `/api/analyze` response as consumed by the result
presentation (scenarios.js:1291-1334). -/
structure Analysis where
  risk_assessment : Option RiskAssessment
  persona_insights : List (String × String)
  executive_summary : Option String
deriving Repr, DecidableEq

/-- JS `x || dflt` for a possibly-absent number interpolated into a
template string: absent (undefined) and 0 are both falsy and yield the
default. -/
def jsNumOr (x : Option Int) (dflt : String) : String :=
  match x with
  | none => dflt
  | some v => if v = 0 then dflt else toString v

/-- JS `x || dflt` for a possibly-absent string: absent and the empty
string are falsy. -/
def jsStrOr (x : Option String) (dflt : String) : String :=
  match x with
  | none => dflt
  | some s => if s = "" then dflt else s

/-- js formatLabel (scenarios.js:1345-1347):
`key.replace(/_/g, ' ').replace(/\b\w/g, l => l.toUpperCase())` — the
second replace upper-cases every word character not preceded by a word
character (`\w` is `[A-Za-z0-9_]`). -/
def capWordStarts : Bool → List Char → List Char
  | _, [] => []
  | prevIsWord, c :: cs =>
      let isWord : Bool := c.isAlphanum || c == '_'
      (if isWord && !prevIsWord then c.toUpper else c) ::
        capWordStarts isWord cs

/-- js formatLabel, assembled: underscores to spaces, then capitalize word
starts. -/
def formatLabel (key : String) : String :=
  ⟨capWordStarts false (key.data.map (fun c => if c = '_' then ' ' else c))⟩

/-- The data content of the results summary markup built by js
createResultsSummary (scenarios.js:1291-1334). -/
structure ResultsSummaryView where
  riskScoreText : String
  riskScoreColor : String
  riskLevelText : String
  complianceScoreText : String
  summaryText : String
  insightRows : List (String × String)
deriving Repr, DecidableEq

/-- js createResultsSummary (scenarios.js:1291-1334):
`riskData = analysis.risk_assessment || {}`, then each interpolation with
its falsy-or default; the insights section lists
`(formatLabel key, value)` rows (rendered only when non-empty). -/
def createResultsSummary (analysis : Analysis) : ResultsSummaryView :=
  let riskData := analysis.risk_assessment.getD ⟨none, none, none, none⟩
  { riskScoreText := jsNumOr riskData.risk_score "--"
    riskScoreColor := jsStrOr riskData.status_color "#dc2626"
    riskLevelText := jsStrOr riskData.risk_level "Unknown" ++ " Risk"
    complianceScoreText := jsNumOr riskData.compliance_score "--"
    summaryText := jsStrOr analysis.executive_summary "Analysis completed successfully."
    insightRows := analysis.persona_insights.map (fun kv => (formatLabel kv.1, kv.2)) }

/-- Modelled from the spec: the per-field validity rule claimed in spec
section 4.2 — a required text field must be non-empty after trimming, a
required list-type (checkbox) field must have at least one selection.
Stated here only to compare against the code's `validateCurrentStep`. -/
def specFieldOk : ReqField → Bool
  | ReqField.input v => jsTrim v != ""
  | ReqField.checkbox _ checked => checked

/-- The handoff record of the spec's section 8 demo-entry scenario. -/
def techStartScenario : Scenario :=
  { name := "TechStart Pro"
    industry := "B2B SaaS"
    ai_system := "Sales lead scoring with anonymized data" }

/-- A session in which the user already typed a company name, with the
demo handoff record still pending in session storage. -/
def userTypedState : WizardState :=
  { currentStep := 1
    wizardData := [("persona", JSVal.str "entrepreneur"),
                   ("company_name", JSVal.str "UserCo")]
    selectedPersona := some "entrepreneur"
    localStore := { wizard_data := none, wizard_step := none }
    sessionStore := { selectedScenario := some techStartScenario
                      selectedPersona := some "entrepreneur" } }

/-- A mid-wizard session with collected data and empty stores. -/
def midWizardState : WizardState :=
  { currentStep := 3
    wizardData := [("persona", JSVal.str "entrepreneur"),
                   ("company_name", JSVal.str "Acme")]
    selectedPersona := some "entrepreneur"
    localStore := { wizard_data := none, wizard_step := none }
    sessionStore := { selectedScenario := none, selectedPersona := none } }

/-- A page whose step 2 carries one required checkbox with a non-empty
value attribute, currently unchecked, and no form. -/
def checkboxOnlyPage : Page :=
  { steps := fun n =>
      if n = 2 then
        some { requiredFields := [ReqField.checkbox "compliance_need" false]
               form := none }
      else none }

/-- A session sitting at step 2 of `checkboxOnlyPage`. -/
def checkboxOnlyState : WizardState :=
  { currentStep := 2
    wizardData := [("persona", JSVal.str "entrepreneur")]
    selectedPersona := some "entrepreneur"
    localStore := { wizard_data := none, wizard_step := none }
    sessionStore := { selectedScenario := none, selectedPersona := none } }

/-- A step-3 page whose form holds the AI-system fields, used to exercise
the submit paths concretely. -/
def submitPage : Page :=
  { steps := fun n =>
      if n = 3 then
        some { requiredFields := [ReqField.input "Sales lead scoring"]
               form := some { entries := [("ai_description", "Sales lead scoring")]
                              checkboxes := [] } }
      else none }

theorem wdGet_wdSet_self (d : WizardData) (k : String) (v : JSVal) :
    wdGet (wdSet d k v) k = some v := by
  induction d with
  | nil => simp [wdGet, wdSet]
  | cons kv rest ih =>
      obtain ⟨k0, v0⟩ := kv
      by_cases h : k0 = k
      · simp [wdGet, wdSet, h]
      · simp [wdGet, wdSet, h, ih]

theorem wdGet_wdSet_ne (d : WizardData) (k k' : String) (v : JSVal)
    (h : k' ≠ k) : wdGet (wdSet d k' v) k = wdGet d k := by
  induction d with
  | nil => simp [wdGet, wdSet, h]
  | cons kv rest ih =>
      obtain ⟨k0, v0⟩ := kv
      by_cases h0 : k0 = k'
      · subst h0
        simp [wdGet, wdSet, h]
      · by_cases h1 : k0 = k
        · simp [wdGet, wdSet, h0, h1, Ne.symm h]
        · simp [wdGet, wdSet, h0, h1, ih]

theorem wdSet_eq_self (d : WizardData) (k : String) (v : JSVal)
    (h : wdGet d k = some v) : wdSet d k v = d := by
  induction d with
  | nil => simp [wdGet] at h
  | cons kv rest ih =>
      obtain ⟨k0, v0⟩ := kv
      by_cases h0 : k0 = k
      · subst h0
        simp [wdGet] at h
        simp [wdSet, h]
      · simp [wdGet, h0] at h
        simp [wdSet, h0, ih h]

theorem wdGet_isSome_wdSet (d : WizardData) (k k' : String) (v : JSVal)
    (h : (wdGet d k).isSome = true) :
    (wdGet (wdSet d k' v) k).isSome = true := by
  by_cases hkk : k' = k
  · subst hkk
    simp [wdGet_wdSet_self]
  · rw [wdGet_wdSet_ne d k k' v hkk]
    exact h

theorem wdGet_prefill (sc : Scenario) (d : WizardData) :
    wdGet (prefillWizardFromScenario sc d) "company_name" = some (JSVal.str sc.name) ∧
    wdGet (prefillWizardFromScenario sc d) "industry" = some (JSVal.str sc.industry.toLower) ∧
    wdGet (prefillWizardFromScenario sc d) "ai_description" = some (JSVal.str sc.ai_system) ∧
    wdGet (prefillWizardFromScenario sc d) "demo_scenario" = some (JSVal.scen sc) := by
  unfold prefillWizardFromScenario
  refine ⟨?_, ?_, ?_, ?_⟩
  · rw [wdGet_wdSet_ne _ _ _ _ (by decide), wdGet_wdSet_ne _ _ _ _ (by decide),
      wdGet_wdSet_ne _ _ _ _ (by decide), wdGet_wdSet_self]
  · rw [wdGet_wdSet_ne _ _ _ _ (by decide), wdGet_wdSet_ne _ _ _ _ (by decide),
      wdGet_wdSet_self]
  · rw [wdGet_wdSet_ne _ _ _ _ (by decide), wdGet_wdSet_self]
  · rw [wdGet_wdSet_self]

theorem prefill_idempotent (sc : Scenario) (d : WizardData) :
    prefillWizardFromScenario sc (prefillWizardFromScenario sc d) =
      prefillWizardFromScenario sc d := by
  obtain ⟨h1, h2, h3, h4⟩ := wdGet_prefill sc d
  set D := prefillWizardFromScenario sc d with hD
  calc prefillWizardFromScenario sc D
      = wdSet (wdSet (wdSet (wdSet D
          "company_name" (JSVal.str sc.name))
          "industry" (JSVal.str sc.industry.toLower))
          "ai_description" (JSVal.str sc.ai_system))
          "demo_scenario" (JSVal.scen sc) := rfl
    _ = D := by
        rw [wdSet_eq_self _ _ _ h1, wdSet_eq_self _ _ _ h2,
          wdSet_eq_self _ _ _ h3, wdSet_eq_self _ _ _ h4]

theorem wdGet_isSome_foldl {β : Type} (step : WizardData → β → WizardData)
    (hstep : ∀ d b k, (wdGet d k).isSome = true → (wdGet (step d b) k).isSome = true)
    (l : List β) (d : WizardData) (k : String)
    (h : (wdGet d k).isSome = true) :
    (wdGet (l.foldl step d) k).isSome = true := by
  induction l generalizing d with
  | nil => simpa using h
  | cons b rest ih =>
      simp only [List.foldl_cons]
      exact ih (step d b) (hstep d b k h)

theorem wdGet_isSome_collectFormInto (form : WizardForm) (d : WizardData)
    (k : String) (h : (wdGet d k).isSome = true) :
    (wdGet (collectFormInto form d) k).isSome = true := by
  unfold collectFormInto
  apply wdGet_isSome_foldl
  · intro d0 b k0 h0
    exact wdGet_isSome_wdSet _ _ _ _ h0
  · apply wdGet_isSome_foldl
    · intro d0 b k0 h0
      by_cases hb : jsIncludes b.1 "checkbox"
      · simpa [hb] using h0
      · simpa [hb] using wdGet_isSome_wdSet _ _ _ _ h0
    · exact h

theorem inputValue_setInputIfEmpty (l : List (String × String))
    (n name v w : String) (h : inputValue l n = some v) (hv : v ≠ "") :
    inputValue (setInputIfEmpty l name w) n = some v := by
  induction l with
  | nil => simp [inputValue] at h
  | cons kv rest ih =>
      obtain ⟨k0, v0⟩ := kv
      by_cases h0 : k0 = name
      · subst h0
        by_cases h1 : v0 = ""
        · subst h1
          by_cases h2 : k0 = n
          · subst h2
            simp [inputValue] at h
            exact absurd h.symm hv
          · simp only [inputValue, if_neg h2] at h
            simp [setInputIfEmpty, inputValue, h2, h]
        · by_cases h2 : k0 = n
          · subst h2
            simp [inputValue] at h
            subst h
            simp [setInputIfEmpty, h1, inputValue]
          · simp only [inputValue, if_neg h2] at h
            simp [setInputIfEmpty, h1, inputValue, h2, h]
      · by_cases h2 : k0 = n
        · subst h2
          simp [inputValue] at h
          subst h
          simp [setInputIfEmpty, h0, inputValue]
        · simp only [inputValue, if_neg h2] at h
          simp [setInputIfEmpty, h0, inputValue, h2, ih h]

theorem takeWhile_append_all {α : Type} (p : α → Bool) (l1 l2 : List α)
    (h : ∀ x ∈ l1, p x = true) :
    (l1 ++ l2).takeWhile p = l1 ++ l2.takeWhile p := by
  induction l1 with
  | nil => simp
  | cons a rest ih =>
      have ha : p a = true := h a (by simp)
      simp only [List.cons_append, List.takeWhile_cons, ha, if_true]
      rw [ih (fun x hx => h x (by simp [hx]))]


theorem collect_currentStep (page : Page) (s : WizardState) :
    (collectCurrentStepData page s).currentStep = s.currentStep := by
  unfold collectCurrentStepData
  cases hp : page.steps s.currentStep with
  | none => rfl
  | some el =>
      cases hf : el.form with
      | none => simp [hf]
      | some form => simp [hf, saveWizardData]

theorem collect_of_form (page : Page) (s : WizardState) (el : StepElement)
    (form : WizardForm) (hel : page.steps s.currentStep = some el)
    (hf : el.form = some form) :
    collectCurrentStepData page s =
      saveWizardData { s with wizardData := collectFormInto form s.wizardData } := by
  unfold collectCurrentStepData
  simp only [hel, hf]

theorem restoreSavedData_currentStep (s : WizardState) :
    (restoreSavedData s).currentStep = s.currentStep := by
  unfold restoreSavedData
  cases hd : s.localStore.wizard_data with
  | none => rfl
  | some d =>
      by_cases hdemo : (wdGet s.wizardData "demo_scenario").isNone
      · simp [hdemo]
      · simp [hdemo]

theorem restoreSavedData_localStore (s : WizardState) :
    (restoreSavedData s).localStore = s.localStore := by
  unfold restoreSavedData
  cases hd : s.localStore.wizard_data with
  | none => rfl
  | some d =>
      by_cases hdemo : (wdGet s.wizardData "demo_scenario").isNone
      · simp [hdemo]
      · simp [hdemo]

theorem restoreSavedData_of_demoPresent (s : WizardState)
    (h : (wdGet s.wizardData "demo_scenario").isSome = true) :
    restoreSavedData s = s := by
  unfold restoreSavedData
  cases hd : s.localStore.wizard_data with
  | none => rfl
  | some d =>
      have hnn : ¬ (wdGet s.wizardData "demo_scenario").isNone = true := by
        cases hq : wdGet s.wizardData "demo_scenario" <;> simp_all
      simp [hnn]

theorem restoreSavedData_wizardData_of (s : WizardState) (d : WizardData)
    (hd : s.localStore.wizard_data = some d)
    (hdemo : wdGet s.wizardData "demo_scenario" = none) :
    (restoreSavedData s).wizardData = d := by
  unfold restoreSavedData
  simp [hd, hdemo]

theorem restoreSavedStep_wizardData (url : String) (s : WizardState) :
    (restoreSavedStep url s).wizardData = s.wizardData := by
  unfold restoreSavedStep
  cases hs : s.localStore.wizard_step with
  | none => rfl
  | some stepStr =>
      by_cases hu : jsIncludes url "demo"
      · simp [hu]
      · simp only [hu, Bool.false_eq_true, if_false]
        cases parseIntNat stepStr with
        | none => rfl
        | some st => by_cases hr : 1 < st ∧ st ≤ totalSteps <;> simp [hr]

theorem restoreSavedStep_of_demoUrl (url : String) (s : WizardState)
    (h : jsIncludes url "demo" = true) :
    (restoreSavedStep url s).currentStep = s.currentStep := by
  unfold restoreSavedStep
  cases hs : s.localStore.wizard_step with
  | none => rfl
  | some stepStr => simp [h]

theorem restoreSavedStep_currentStep_cases (url : String) (s : WizardState) :
    (restoreSavedStep url s).currentStep = s.currentStep ∨
      (1 < (restoreSavedStep url s).currentStep ∧
        (restoreSavedStep url s).currentStep ≤ totalSteps) := by
  unfold restoreSavedStep
  cases hs : s.localStore.wizard_step with
  | none => left; rfl
  | some stepStr =>
      by_cases hu : jsIncludes url "demo"
      · left; simp [hu]
      · simp only [hu, Bool.false_eq_true, if_false]
        cases hn : parseIntNat stepStr with
        | none => left; rfl
        | some st =>
            by_cases hr : 1 < st ∧ st ≤ totalSteps
            · right; simp [hr]
            · left; simp [hr]

theorem parseInt_toString_small (c : Nat) (h1 : 1 ≤ c) (h4 : c ≤ 4) :
    parseIntNat (toString c) = some c := by
  interval_cases c <;> decide

theorem restoreSavedStep_currentStep_of (url : String) (s : WizardState)
    (c : Nat) (hs : s.localStore.wizard_step = some (toString c))
    (hurl : jsIncludes url "demo" = false)
    (h1 : 1 ≤ c) (h4 : c ≤ totalSteps) (hcur : s.currentStep = 1) :
    (restoreSavedStep url s).currentStep = c := by
  unfold restoreSavedStep
  simp only [hs, hurl, Bool.false_eq_true, if_false,
    parseInt_toString_small c h1 h4]
  by_cases hc : 1 < c
  · simp [hc, h4]
  · have : c = 1 := by omega
    subst this
    simp [hcur]

theorem load_currentStep_of_demoUrl (url : String) (s : WizardState)
    (h : jsIncludes url "demo" = true) :
    (loadSavedWizardData url s).currentStep = s.currentStep := by
  unfold loadSavedWizardData
  rw [restoreSavedStep_of_demoUrl url _ h, restoreSavedData_currentStep]

theorem load_wizardData_of_demoPresent (url : String) (s : WizardState)
    (h : (wdGet s.wizardData "demo_scenario").isSome = true) :
    (loadSavedWizardData url s).wizardData = s.wizardData := by
  unfold loadSavedWizardData
  rw [restoreSavedData_of_demoPresent s h, restoreSavedStep_wizardData]

theorem load_currentStep_cases (url : String) (s : WizardState) :
    (loadSavedWizardData url s).currentStep = s.currentStep ∨
      (1 < (loadSavedWizardData url s).currentStep ∧
        (loadSavedWizardData url s).currentStep ≤ totalSteps) := by
  unfold loadSavedWizardData
  rcases restoreSavedStep_currentStep_cases url (restoreSavedData s) with h | h
  · left
    rw [h, restoreSavedData_currentStep]
  · right
    exact h

theorem load_of_saved_store (url : String) (d : WizardData) (c : Nat)
    (ss : SessionStore) (hurl : jsIncludes url "demo" = false)
    (h1 : 1 ≤ c) (h4 : c ≤ totalSteps) :
    (loadSavedWizardData url
        (initialState ⟨some d, some (toString c)⟩ ss)).wizardData = d ∧
    (loadSavedWizardData url
        (initialState ⟨some d, some (toString c)⟩ ss)).currentStep = c := by
  unfold loadSavedWizardData
  constructor
  · rw [restoreSavedStep_wizardData]
    apply restoreSavedData_wizardData_of
    · rfl
    · rfl
  · apply restoreSavedStep_currentStep_of
    · rw [restoreSavedData_localStore]
      rfl
    · exact hurl
    · exact h1
    · exact h4
    · rw [restoreSavedData_currentStep]
      rfl

theorem precedes_staged_append (n i : Nat) (hi : i < n)
    (l : List AnalysisEvent) (b : AnalysisEvent)
    (hb : ∀ j, (AnalysisEvent.stagedStepShown j != b) = true) :
    precedes (simulateAnalysisStepsTrace n ++ l)
      (AnalysisEvent.stagedStepShown i) b = true := by
  unfold precedes
  rw [takeWhile_append_all _ _ _ ?hall]
  case hall =>
    intro x hx
    simp [simulateAnalysisStepsTrace] at hx
    obtain ⟨j, hj, rfl⟩ := hx
    exact hb j
  have hmem : AnalysisEvent.stagedStepShown i ∈ simulateAnalysisStepsTrace n := by
    simp [simulateAnalysisStepsTrace]
    exact hi
  simp [hmem]

theorem precedes_append_tail (n : Nat) (l : List AnalysisEvent)
    (a b : AnalysisEvent) (hb : ∀ j, (AnalysisEvent.stagedStepShown j != b) = true)
    (hab : a ∈ l.takeWhile (fun e => e != b)) :
    precedes (simulateAnalysisStepsTrace n ++ l) a b = true := by
  unfold precedes
  rw [takeWhile_append_all _ _ _ ?hall]
  case hall =>
    intro x hx
    simp [simulateAnalysisStepsTrace] at hx
    obtain ⟨j, hj, rfl⟩ := hx
    exact hb j
  simp [hab]

/-- C1 counterexample: in the event trace of runAnalysis (shown here with
four staged steps), the network request is NOT issued before the staged
sequence finishes: the final staged step occurs in the trace, the request
does not precede it, and instead it precedes the request — `await
simulateAnalysisSteps()` (scenarios.js:1200) completes before
`makeAPICall('/api/analyze', ...)` (scenarios.js:1202) starts, so the
staged sequence does gate the network request. -/
theorem c1_counterexample :
    AnalysisEvent.stagedStepShown 3 ∈ runAnalysisTrace 4 AnalysisOutcome.success ∧
    precedes (runAnalysisTrace 4 AnalysisOutcome.success)
      AnalysisEvent.requestIssued (AnalysisEvent.stagedStepShown 3) = false ∧
    precedes (runAnalysisTrace 4 AnalysisOutcome.success)
      (AnalysisEvent.stagedStepShown 3) AnalysisEvent.requestIssued = true := by
  decide

/-- C1 (amended): the staged-progress sequence and the network call are
sequential, not concurrent — the staged sequence is awaited to completion
before the network request is issued, and the final result is displayed
only after both: in every success trace each staged step precedes the
request, the request precedes the response, and the response precedes the
result display. -/
theorem c1_staged_gates_request (n i : Nat) (hi : i < n) :
    precedes (runAnalysisTrace n AnalysisOutcome.success)
      (AnalysisEvent.stagedStepShown i) AnalysisEvent.requestIssued = true ∧
    precedes (runAnalysisTrace n AnalysisOutcome.success)
      AnalysisEvent.requestIssued AnalysisEvent.responseReceived = true ∧
    precedes (runAnalysisTrace n AnalysisOutcome.success)
      AnalysisEvent.responseReceived AnalysisEvent.resultDisplayed = true := by
  refine ⟨?_, ?_, ?_⟩
  · exact precedes_staged_append n i hi _ _ (fun j => rfl)
  · exact precedes_append_tail n _ _ _ (fun j => rfl) (by decide)
  · exact precedes_append_tail n _ _ _ (fun j => rfl) (by decide)

/-- C1 witness: the amended ordering facts at the concrete trace with four
staged steps, staged step 2. -/
theorem c1_staged_gates_request_witness :
    precedes (runAnalysisTrace 4 AnalysisOutcome.success)
      (AnalysisEvent.stagedStepShown 2) AnalysisEvent.requestIssued = true ∧
    precedes (runAnalysisTrace 4 AnalysisOutcome.success)
      AnalysisEvent.requestIssued AnalysisEvent.responseReceived = true ∧
    precedes (runAnalysisTrace 4 AnalysisOutcome.success)
      AnalysisEvent.responseReceived AnalysisEvent.resultDisplayed = true :=
  c1_staged_gates_request 4 2 (by decide)

/-- C2 counterexample: with the user-entered value "UserCo" already stored
under company_name in the session's data, prefillWizardFromScenario
overwrites it with the scenario name — the spread in scenarios.js:901-907
writes the mapped fields unconditionally, so the session-data prefill is
not additive-only. -/
theorem c2_counterexample :
    wdGet userTypedState.wizardData "company_name" = some (JSVal.str "UserCo") ∧
    wdGet (prefillWizardFromScenario techStartScenario userTypedState.wizardData)
      "company_name" = some (JSVal.str "TechStart Pro") := by
  decide

/-- C2 (amended): the DOM-level demo auto-fill (autoFillDemoData) is
additive-only — an input whose current value is non-empty is never
changed — while the initial session-level prefill
(prefillWizardFromScenario) writes company_name, lower-cased industry and
ai_description unconditionally, overwriting any user-entered value in the
session's data. -/
theorem c2_dom_additive_session_overwrites
    (s : WizardState) (f : DomForm) (n v : String) (sc : Scenario)
    (d : WizardData) (hv : inputValue f.inputs n = some v) (hne : v ≠ "") :
    inputValue (autoFillDemoData s f).inputs n = some v ∧
    wdGet (prefillWizardFromScenario sc d) "company_name"
      = some (JSVal.str sc.name) ∧
    wdGet (prefillWizardFromScenario sc d) "industry"
      = some (JSVal.str sc.industry.toLower) ∧
    wdGet (prefillWizardFromScenario sc d) "ai_description"
      = some (JSVal.str sc.ai_system) := by
  obtain ⟨h1, h2, h3, _⟩ := wdGet_prefill sc d
  refine ⟨?_, h1, h2, h3⟩
  unfold autoFillDemoData
  cases hd : wdGet s.wizardData "demo_scenario" with
  | none => exact hv
  | some jv =>
      cases jv with
      | str a => exact hv
      | list a => exact hv
      | scen scenario =>
          by_cases hs2 : s.currentStep = 2
          · simp only [hs2, if_true]
            exact inputValue_setInputIfEmpty _ _ _ _ _
              (inputValue_setInputIfEmpty _ _ _ _ _ hv hne) hne
          · by_cases hs3 : s.currentStep = 3
            · simp only [hs2, hs3, if_false, if_true]
              exact inputValue_setInputIfEmpty _ _ _ _ _ hv hne
            · simp only [hs2, hs3, if_false]
              exact hv

/-- C2 witness: at step 2 with the section-8 scenario pending, an input
already holding "UserCo" keeps its value through the DOM auto-fill, while
the session prefill maps the three fields from the scenario. -/
theorem c2_dom_additive_session_overwrites_witness :
    inputValue [("company_name", "UserCo"), ("industry", "")] "company_name"
      = some "UserCo" ∧
    ("UserCo" : String) ≠ "" ∧
    (inputValue (autoFillDemoData
        ⟨2, prefillWizardFromScenario techStartScenario [], some "entrepreneur",
          ⟨none, none⟩, ⟨none, none⟩⟩
        ⟨[("company_name", "UserCo"), ("industry", "")]⟩).inputs "company_name"
      = some "UserCo" ∧
     wdGet (prefillWizardFromScenario techStartScenario []) "company_name"
      = some (JSVal.str techStartScenario.name) ∧
     wdGet (prefillWizardFromScenario techStartScenario []) "industry"
      = some (JSVal.str techStartScenario.industry.toLower) ∧
     wdGet (prefillWizardFromScenario techStartScenario []) "ai_description"
      = some (JSVal.str techStartScenario.ai_system)) :=
  ⟨by decide, by decide,
    c2_dom_additive_session_overwrites
      ⟨2, prefillWizardFromScenario techStartScenario [], some "entrepreneur",
        ⟨none, none⟩, ⟨none, none⟩⟩
      ⟨[("company_name", "UserCo"), ("industry", "")]⟩
      "company_name" "UserCo" techStartScenario [] (by decide) (by decide)⟩

/-- C3 counterexample: the one-shot record is NOT consumed on first read —
after loadDemoScenario the selectedScenario key is still present
(loadDemoScenario never removes it, scenarios.js:888-898) — and a second
apply is not a no-op: after the user edits company_name between the two
applies, the second apply changes the session data again. -/
theorem c3_counterexample :
    (loadDemoScenario userTypedState).sessionStore.selectedScenario
      = some techStartScenario ∧
    (loadDemoScenario
        { loadDemoScenario userTypedState with
            wizardData := wdSet (loadDemoScenario userTypedState).wizardData
              "company_name" (JSVal.str "Edited") }).wizardData ≠
      wdSet (loadDemoScenario userTypedState).wizardData
        "company_name" (JSVal.str "Edited") := by
  decide

/-- C3 (amended): the one-shot record is NOT deleted when first read —
loadDemoScenario leaves session storage unchanged; it is removed only by
clearSavedWizardData (successful submit or restart).  Two consecutive
applies nevertheless produce the same state as one, because the prefill
overwrites the mapped keys with the same fixed scenario values, so the
operation is idempotent on an otherwise-unchanged session. -/
theorem c3_record_persists_apply_idempotent (s : WizardState) :
    loadDemoScenario (loadDemoScenario s) = loadDemoScenario s ∧
    (loadDemoScenario s).sessionStore = s.sessionStore ∧
    (clearSavedWizardData s).sessionStore.selectedScenario = none := by
  refine ⟨?_, ?_, rfl⟩
  · unfold loadDemoScenario
    cases hs : s.sessionStore.selectedScenario with
    | none => simp [hs]
    | some sc => simp [hs, prefill_idempotent]
  · unfold loadDemoScenario
    cases hs : s.sessionStore.selectedScenario with
    | none => rfl
    | some sc => rfl

/-- C4: after a successful submit the durable store is cleared
(displayWizardResults calls clearSavedWizardData), so a fresh page load
finds the default empty session; after a failed submit showAnalysisError
writes nothing — the durable store still holds exactly the data collected
at submission together with the submission step, so a fresh load restores
both and no previously collected key is lost. -/
theorem c4_success_clears_failure_preserves
    (page : Page) (s : WizardState) (url : String) (ss ss2 : SessionStore)
    (el : StepElement) (form : WizardForm)
    (hstep : s.currentStep = 3)
    (hel : page.steps 3 = some el) (hf : el.form = some form)
    (hurl : jsIncludes url "demo" = false) :
    ((loadSavedWizardData url (initialState
        (runAnalysisState page AnalysisOutcome.success true s).localStore
        ss)).wizardData = [] ∧
     (loadSavedWizardData url (initialState
        (runAnalysisState page AnalysisOutcome.success true s).localStore
        ss)).currentStep = 1) ∧
    ((loadSavedWizardData url (initialState
        (runAnalysisState page AnalysisOutcome.failure true s).localStore
        ss2)).wizardData =
       (runAnalysisState page AnalysisOutcome.failure true s).wizardData ∧
     (loadSavedWizardData url (initialState
        (runAnalysisState page AnalysisOutcome.failure true s).localStore
        ss2)).currentStep = 3 ∧
     ∀ k, (wdGet s.wizardData k).isSome = true →
       (wdGet (runAnalysisState page AnalysisOutcome.failure true s).wizardData
         k).isSome = true) := by
  have hel' : page.steps s.currentStep = some el := by rw [hstep]; exact hel
  have hcol := collect_of_form page s el form hel' hf
  have hsucc : (runAnalysisState page AnalysisOutcome.success true s).localStore
      = ⟨none, none⟩ := by
    unfold runAnalysisState displayWizardResults clearSavedWizardData
    simp
  have hfail : runAnalysisState page AnalysisOutcome.failure true s =
      { currentStep := 4
        wizardData := collectFormInto form s.wizardData
        selectedPersona := s.selectedPersona
        localStore := ⟨some (collectFormInto form s.wizardData), some (toString 3)⟩
        sessionStore := s.sessionStore } := by
    unfold runAnalysisState showAnalysisError
    rw [hcol]
    unfold saveWizardData
    simp [hstep]
  refine ⟨?_, ?_⟩
  · rw [hsucc]
    exact ⟨rfl, rfl⟩
  · rw [hfail]
    have h := load_of_saved_store url (collectFormInto form s.wizardData) 3 ss2
      hurl (by decide) (by decide)
    refine ⟨h.1, h.2, ?_⟩
    intro k hk
    exact wdGet_isSome_collectFormInto form s.wizardData k hk

/-- C4 witness: the submit paths at a concrete step-3 session and page. -/
theorem c4_success_clears_failure_preserves_witness :
    midWizardState.currentStep = 3 ∧
    submitPage.steps 3 =
      some { requiredFields := [ReqField.input "Sales lead scoring"]
             form := some { entries := [("ai_description", "Sales lead scoring")]
                            checkboxes := [] } } ∧
    jsIncludes "?persona=entrepreneur" "demo" = false ∧
    (((loadSavedWizardData "?persona=entrepreneur" (initialState
        (runAnalysisState submitPage AnalysisOutcome.success true
          midWizardState).localStore ⟨none, none⟩)).wizardData = [] ∧
      (loadSavedWizardData "?persona=entrepreneur" (initialState
        (runAnalysisState submitPage AnalysisOutcome.success true
          midWizardState).localStore ⟨none, none⟩)).currentStep = 1) ∧
     ((loadSavedWizardData "?persona=entrepreneur" (initialState
        (runAnalysisState submitPage AnalysisOutcome.failure true
          midWizardState).localStore ⟨none, none⟩)).wizardData =
        (runAnalysisState submitPage AnalysisOutcome.failure true
          midWizardState).wizardData ∧
      (loadSavedWizardData "?persona=entrepreneur" (initialState
        (runAnalysisState submitPage AnalysisOutcome.failure true
          midWizardState).localStore ⟨none, none⟩)).currentStep = 3 ∧
      ∀ k, (wdGet midWizardState.wizardData k).isSome = true →
        (wdGet (runAnalysisState submitPage AnalysisOutcome.failure true
          midWizardState).wizardData k).isSome = true)) :=
  ⟨by decide, by decide, by decide,
    c4_success_clears_failure_preserves submitPage midWizardState
      "?persona=entrepreneur" ⟨none, none⟩ ⟨none, none⟩
      { requiredFields := [ReqField.input "Sales lead scoring"]
        form := some { entries := [("ai_description", "Sales lead scoring")]
                       checkboxes := [] } }
      { entries := [("ai_description", "Sales lead scoring")], checkboxes := [] }
      (by decide) (by decide) (by decide) (by decide)⟩

theorem nextStep_of_valid (page : Page) (s : WizardState) (el : StepElement)
    (form : WizardForm) (hv : validateCurrentStep page s = true)
    (hel : page.steps s.currentStep = some el) (hf : el.form = some form) :
    nextStep page s =
      (if s.currentStep < totalSteps then
        { saveWizardData { s with wizardData := collectFormInto form s.wizardData }
            with currentStep := s.currentStep + 1 }
       else
        saveWizardData { s with wizardData := collectFormInto form s.wizardData }) := by
  unfold nextStep
  rw [collect_of_form page s el form hel hf]
  simp [hv, saveWizardData]

/-- C5 counterexample: a successful previous() (step 3 to step 2, data
non-empty) invokes no durable save — previousStep (scenarios.js:1032-1038)
never touches the store, so afterwards the store does not hold what a save
would have written. -/
theorem c5_counterexample :
    (previousStep midWizardState).currentStep = 2 ∧
    midWizardState.wizardData ≠ [] ∧
    (previousStep midWizardState).localStore.wizard_data = none ∧
    (previousStep midWizardState).localStore ≠
      (saveWizardData (previousStep midWizardState)).localStore := by
  decide

/-- C5 (amended): the durable save runs inside every successful next()
(via collectCurrentStepData, when the step element and form are present),
recording the post-collect data and the PRE-increment step; previous()
never writes the store; and the 30-time-unit timer tick saves exactly when
the data is non-empty. -/
theorem c5_save_points (page : Page) (s : WizardState) (el : StepElement)
    (form : WizardForm) (hv : validateCurrentStep page s = true)
    (hel : page.steps s.currentStep = some el) (hf : el.form = some form) :
    ((nextStep page s).localStore.wizard_data = some (nextStep page s).wizardData ∧
     (nextStep page s).localStore.wizard_step = some (toString s.currentStep)) ∧
    (∀ t : WizardState, (previousStep t).localStore = t.localStore) ∧
    (∀ t : WizardState, 0 < t.wizardData.length →
      (autoSaveTick t).localStore =
        ⟨some t.wizardData, some (toString t.currentStep)⟩) ∧
    (∀ t : WizardState, t.wizardData = [] → autoSaveTick t = t) := by
  refine ⟨?_, ?_, ?_, ?_⟩
  · rw [nextStep_of_valid page s el form hv hel hf]
    by_cases hlt : s.currentStep < totalSteps
    · simp [hlt, saveWizardData]
    · simp [hlt, saveWizardData]
  · intro t
    unfold previousStep
    by_cases ht : 1 < t.currentStep
    · simp [ht]
    · simp [ht]
  · intro t ht
    unfold autoSaveTick saveWizardData
    simp [ht]
  · intro t ht
    unfold autoSaveTick
    simp [ht]

/-- C5 witness: the save points at a concrete valid step-3 session. -/
theorem c5_save_points_witness :
    validateCurrentStep submitPage midWizardState = true ∧
    ((nextStep submitPage midWizardState).localStore.wizard_data
        = some (nextStep submitPage midWizardState).wizardData ∧
     (nextStep submitPage midWizardState).localStore.wizard_step
        = some (toString midWizardState.currentStep)) ∧
    (∀ t : WizardState, (previousStep t).localStore = t.localStore) ∧
    (∀ t : WizardState, 0 < t.wizardData.length →
      (autoSaveTick t).localStore =
        ⟨some t.wizardData, some (toString t.currentStep)⟩) ∧
    (∀ t : WizardState, t.wizardData = [] → autoSaveTick t = t) :=
  ⟨by decide,
    c5_save_points submitPage midWizardState
      { requiredFields := [ReqField.input "Sales lead scoring"]
        form := some { entries := [("ai_description", "Sales lead scoring")]
                       checkboxes := [] } }
      { entries := [("ai_description", "Sales lead scoring")], checkboxes := [] }
      (by decide) (by decide) (by decide)⟩

/-- C6 counterexample: a required checkbox with value attribute
"compliance_need" and no selection passes the code's validation — JS
`field.value.trim()` reads the value attribute of a checkbox, not its
checked state (scenarios.js:1113-1122) — although the claimed
at-least-one-selection rule (specFieldOk) rejects it. -/
theorem c6_counterexample :
    validateCurrentStep checkboxOnlyPage checkboxOnlyState = true ∧
    checkboxOnlyPage.steps checkboxOnlyState.currentStep =
      some { requiredFields := [ReqField.checkbox "compliance_need" false]
             form := none } ∧
    specFieldOk (ReqField.checkbox "compliance_need" false) = false := by
  decide

/-- C6 (amended): when the step's element is present, validation at step 1
passes iff a persona is selected, and at the other steps iff every
required field's DOM value is non-empty after trimming — where a
checkbox's DOM value is its value attribute, regardless of selection —
and a failing validation makes next() a strict no-op. -/
theorem c6_validation_gates_next (page : Page) (s : WizardState)
    (el : StepElement) (hel : page.steps s.currentStep = some el) :
    (s.currentStep = 1 →
      (validateCurrentStep page s = true ↔ s.selectedPersona.isSome = true)) ∧
    (s.currentStep ≠ 1 →
      (validateCurrentStep page s = true ↔
        ∀ fd ∈ el.requiredFields, jsTrim fd.domValue ≠ "")) ∧
    (validateCurrentStep page s = false → nextStep page s = s) := by
  refine ⟨?_, ?_, ?_⟩
  · intro h1
    have hel1 : page.steps 1 = some el := by rw [← h1]; exact hel
    unfold validateCurrentStep
    simp only [h1, hel1, if_true]
  · intro h1
    unfold validateCurrentStep
    simp only [hel, h1, if_false]
    simp [List.all_eq_true]
  · intro hfail
    unfold nextStep
    simp [hfail]

/-- C6 witness: the amended characterization at the concrete
checkbox-only page, where validation passes at step 2. -/
theorem c6_validation_gates_next_witness :
    checkboxOnlyPage.steps checkboxOnlyState.currentStep =
      some { requiredFields := [ReqField.checkbox "compliance_need" false]
             form := none } ∧
    ((checkboxOnlyState.currentStep = 1 →
      (validateCurrentStep checkboxOnlyPage checkboxOnlyState = true ↔
        checkboxOnlyState.selectedPersona.isSome = true)) ∧
     (checkboxOnlyState.currentStep ≠ 1 →
      (validateCurrentStep checkboxOnlyPage checkboxOnlyState = true ↔
        ∀ fd ∈ [ReqField.checkbox "compliance_need" false],
          jsTrim fd.domValue ≠ "")) ∧
     (validateCurrentStep checkboxOnlyPage checkboxOnlyState = false →
        nextStep checkboxOnlyPage checkboxOnlyState = checkboxOnlyState)) :=
  ⟨by decide,
    c6_validation_gates_next checkboxOnlyPage checkboxOnlyState
      { requiredFields := [ReqField.checkbox "compliance_need" false]
        form := none } (by decide)⟩

/-- C7: saving a session and loading it into a fresh default page (whose
URL query does not contain 'demo') reproduces the same currentStep and the
same data mapping, for every session with 1 ≤ currentStep ≤ totalSteps. -/
theorem c7_save_load_roundtrip (c : Nat) (d : WizardData) (p : Option String)
    (ls : LocalStore) (ss ss2 : SessionStore) (url : String)
    (h1 : 1 ≤ c) (h4 : c ≤ totalSteps) (hurl : jsIncludes url "demo" = false) :
    (loadSavedWizardData url (initialState
        (saveWizardData ⟨c, d, p, ls, ss⟩).localStore ss2)).currentStep = c ∧
    (loadSavedWizardData url (initialState
        (saveWizardData ⟨c, d, p, ls, ss⟩).localStore ss2)).wizardData = d := by
  have h := load_of_saved_store url d c ss2 hurl h1 h4
  exact ⟨h.2, h.1⟩

/-- C7 witness: round trip at a concrete step-2 session. -/
theorem c7_save_load_roundtrip_witness :
    1 ≤ 2 ∧ 2 ≤ totalSteps ∧ jsIncludes "?persona=seller" "demo" = false ∧
    ((loadSavedWizardData "?persona=seller" (initialState
        (saveWizardData ⟨2, [("persona", JSVal.str "seller")], some "seller",
          ⟨none, none⟩, ⟨none, none⟩⟩).localStore ⟨none, none⟩)).currentStep = 2 ∧
     (loadSavedWizardData "?persona=seller" (initialState
        (saveWizardData ⟨2, [("persona", JSVal.str "seller")], some "seller",
          ⟨none, none⟩, ⟨none, none⟩⟩).localStore ⟨none, none⟩)).wizardData =
       [("persona", JSVal.str "seller")]) :=
  ⟨by decide, by decide, by decide,
    c7_save_load_roundtrip 2 [("persona", JSVal.str "seller")] (some "seller")
      ⟨none, none⟩ ⟨none, none⟩ ⟨none, none⟩ "?persona=seller"
      (by decide) (by decide) (by decide)⟩

/-- C8: with 1 ≤ currentStep ≤ totalSteps before the operation, the bound
holds after nextStep (increment capped below totalSteps), previousStep
(decrement with floor 1, never touching the collected data), a resume via
loadSavedWizardData (which only restores a stored step strictly between 1
and totalSteps), and runAnalysisState (which pins step 4). -/
theorem c8_step_bounds (page : Page) (s : WizardState) (url : String)
    (outcome : AnalysisOutcome) (resEl : Bool)
    (h1 : 1 ≤ s.currentStep) (h4 : s.currentStep ≤ totalSteps) :
    (1 ≤ (nextStep page s).currentStep ∧
      (nextStep page s).currentStep ≤ totalSteps) ∧
    (1 ≤ (previousStep s).currentStep ∧
      (previousStep s).currentStep ≤ totalSteps) ∧
    (previousStep s).wizardData = s.wizardData ∧
    (1 ≤ (loadSavedWizardData url s).currentStep ∧
      (loadSavedWizardData url s).currentStep ≤ totalSteps) ∧
    (1 ≤ (runAnalysisState page outcome resEl s).currentStep ∧
      (runAnalysisState page outcome resEl s).currentStep ≤ totalSteps) := by
  refine ⟨?_, ?_, ?_, ?_, ?_⟩
  · have hnext : (nextStep page s).currentStep = s.currentStep ∨
        ((nextStep page s).currentStep = s.currentStep + 1 ∧
          s.currentStep < totalSteps) := by
      unfold nextStep
      by_cases hv : validateCurrentStep page s = true
      · simp only [hv, if_true]
        by_cases hlt : (collectCurrentStepData page s).currentStep < totalSteps
        · right
          have hlt2 : s.currentStep < totalSteps := by
            rwa [collect_currentStep] at hlt
          constructor
          · simp [hlt2, collect_currentStep]
          · exact hlt2
        · left
          have hlt2 : ¬ s.currentStep < totalSteps := by
            rwa [collect_currentStep] at hlt
          simp [hlt2, collect_currentStep]
      · simp [hv]
    simp only [totalSteps] at *
    omega
  · unfold previousStep
    by_cases ht : 1 < s.currentStep
    · simp only [ht, if_true]
      simp only [totalSteps] at *
      omega
    · simp only [ht, if_false]
      exact ⟨h1, h4⟩
  · unfold previousStep
    by_cases ht : 1 < s.currentStep
    · simp [ht]
    · simp [ht]
  · have hload := load_currentStep_cases url s
    simp only [totalSteps] at *
    omega
  · have hrun : (runAnalysisState page outcome resEl s).currentStep = 4 := by
      cases outcome with
      | success =>
          cases resEl with
          | true =>
              simp [runAnalysisState, displayWizardResults, clearSavedWizardData]
          | false =>
              simp [runAnalysisState, displayWizardResults]
      | failure => simp [runAnalysisState, showAnalysisError]
    simp only [totalSteps] at *
    omega

/-- C8 witness: the bounds at a concrete mid-wizard session. -/
theorem c8_step_bounds_witness :
    1 ≤ midWizardState.currentStep ∧ midWizardState.currentStep ≤ totalSteps ∧
    ((1 ≤ (nextStep submitPage midWizardState).currentStep ∧
      (nextStep submitPage midWizardState).currentStep ≤ totalSteps) ∧
     (1 ≤ (previousStep midWizardState).currentStep ∧
      (previousStep midWizardState).currentStep ≤ totalSteps) ∧
     (previousStep midWizardState).wizardData = midWizardState.wizardData ∧
     (1 ≤ (loadSavedWizardData "" midWizardState).currentStep ∧
      (loadSavedWizardData "" midWizardState).currentStep ≤ totalSteps) ∧
     (1 ≤ (runAnalysisState submitPage AnalysisOutcome.failure true
        midWizardState).currentStep ∧
      (runAnalysisState submitPage AnalysisOutcome.failure true
        midWizardState).currentStep ≤ totalSteps)) :=
  ⟨by decide, by decide,
    c8_step_bounds submitPage midWizardState "" AnalysisOutcome.failure true
      (by decide) (by decide)⟩

/-- C9: in the results summary, a risk_score or compliance_score equal to
0 renders as the placeholder "--" exactly like an absent field — the
falsy-or interpolations `riskData.risk_score || '--'` and
`riskData.compliance_score || '--'` (scenarios.js:1300, 1307) make a
legitimate zero score indistinguishable from a missing one in the whole
display model. -/
theorem c9_zero_score_renders_placeholder (ra : RiskAssessment)
    (ins : List (String × String)) (es : Option String) :
    createResultsSummary ⟨some { ra with risk_score := some 0 }, ins, es⟩ =
      createResultsSummary ⟨some { ra with risk_score := none }, ins, es⟩ ∧
    (createResultsSummary
        ⟨some { ra with risk_score := some 0 }, ins, es⟩).riskScoreText = "--" ∧
    createResultsSummary ⟨some { ra with compliance_score := some 0 }, ins, es⟩ =
      createResultsSummary ⟨some { ra with compliance_score := none }, ins, es⟩ ∧
    (createResultsSummary
        ⟨some { ra with compliance_score := some 0 }, ins, es⟩).complianceScoreText
      = "--" := by
  refine ⟨?_, ?_, ?_, ?_⟩ <;> simp [createResultsSummary, jsNumOr]

/-- C10: resume is suppressed in demo mode — the saved data mapping is not
restored when a demo scenario is already present in the live session, the
saved currentStep is not restored when the entry URL's query string
contains the substring 'demo', and a demo entry from the fresh default
session therefore stays at step 1 regardless of persisted progress. -/
theorem c10_demo_suppresses_resume (url url2 : String) (s t : WizardState)
    (ls : LocalStore) (ss : SessionStore)
    (hdemo : (wdGet s.wizardData "demo_scenario").isSome = true)
    (hurl : jsIncludes url "demo" = true) :
    (loadSavedWizardData url2 s).wizardData = s.wizardData ∧
    (loadSavedWizardData url t).currentStep = t.currentStep ∧
    (loadSavedWizardData url (initialState ls ss)).currentStep = 1 := by
  refine ⟨load_wizardData_of_demoPresent url2 s hdemo,
    load_currentStep_of_demoUrl url t hurl, ?_⟩
  rw [load_currentStep_of_demoUrl url _ hurl]
  rfl

/-- C10 witness: the suppression at the demo-entry URL of spec section 8,
with a session holding the prefilled demo scenario and a saved store
pointing at step 3. -/
theorem c10_demo_suppresses_resume_witness :
    (wdGet (prefillWizardFromScenario techStartScenario []) "demo_scenario").isSome
      = true ∧
    jsIncludes "?persona=entrepreneur&demo=true&scenario=TechStart+Pro" "demo"
      = true ∧
    ((loadSavedWizardData "?x=1"
        ⟨2, prefillWizardFromScenario techStartScenario [], some "entrepreneur",
          ⟨some [("company_name", JSVal.str "Acme")], some "3"⟩,
          ⟨none, none⟩⟩).wizardData
        = prefillWizardFromScenario techStartScenario [] ∧
     (loadSavedWizardData "?persona=entrepreneur&demo=true&scenario=TechStart+Pro"
        ⟨1, [], none, ⟨some [("company_name", JSVal.str "Acme")], some "3"⟩,
          ⟨none, none⟩⟩).currentStep = 1 ∧
     (loadSavedWizardData "?persona=entrepreneur&demo=true&scenario=TechStart+Pro"
        (initialState ⟨some [("company_name", JSVal.str "Acme")], some "3"⟩
          ⟨none, none⟩)).currentStep = 1) :=
  ⟨by decide, by decide,
    c10_demo_suppresses_resume
      "?persona=entrepreneur&demo=true&scenario=TechStart+Pro" "?x=1"
      ⟨2, prefillWizardFromScenario techStartScenario [], some "entrepreneur",
        ⟨some [("company_name", JSVal.str "Acme")], some "3"⟩, ⟨none, none⟩⟩
      ⟨1, [], none, ⟨some [("company_name", JSVal.str "Acme")], some "3"⟩,
        ⟨none, none⟩⟩
      ⟨some [("company_name", JSVal.str "Acme")], some "3"⟩ ⟨none, none⟩
      (by decide) (by decide)⟩
